import Mathlib

/-!
Shallow embedding of `src/model.py` (a PyTorch encoder/decoder model file
with Luong attention) and proofs about its claimed behaviour.

Modelling conventions:
* tensors are total index functions together with explicit shape fields
  (`Tensor3` for rank 3, `Tensor2` for rank 2); entries are rationals,
  standing for the real numbers the framework computes;
* the transcendental framework primitives (the exponential inside
  `F.softmax` and `tanh`) are abstracted as function parameters `e` and
  `th`; the softmax facts below hold for any positive `e`;
* framework recurrent modules (`nn.LSTM` / `nn.GRU`) are abstracted as
  functions supplied by constructor parameters (`mk...` arguments); the
  hidden-state type is a type parameter `σ` (for LSTM it stands for the
  `(hn, cn)` pair);
* Python exceptions are modelled with `Except PyError`.
-/

/-- A rank-3 tensor of shape `(size0, size1, size2)`.  `data` is total;
only indices below the sizes are meaningful. -/
structure Tensor3 where
  size0 : Nat
  size1 : Nat
  size2 : Nat
  data : Nat → Nat → Nat → ℚ

/-- A rank-2 tensor of shape `(size0, size1)`. -/
structure Tensor2 where
  size0 : Nat
  size1 : Nat
  data : Nat → Nat → ℚ

/-- Index adjustment for PyTorch broadcasting: a dimension of size 1 is
read at index 0 whatever the requested index. -/
def bidx (n i : Nat) : Nat := if n = 1 then 0 else i

/-- Pointwise binary operation with PyTorch broadcasting over equal-or-one
dimension sizes (the only shapes the source combines). -/
def zipB (op : ℚ → ℚ → ℚ) (x y : Tensor3) : Tensor3 :=
  ⟨max x.size0 y.size0, max x.size1 y.size1, max x.size2 y.size2,
    fun i j k =>
      op (x.data (bidx x.size0 i) (bidx x.size1 j) (bidx x.size2 k))
        (y.data (bidx y.size0 i) (bidx y.size1 j) (bidx y.size2 k))⟩

/-- Broadcasting elementwise addition (`+` on tensors). -/
def add3 : Tensor3 → Tensor3 → Tensor3 := zipB (fun a b => a + b)

/-- Broadcasting elementwise multiplication (`*` on tensors). -/
def mulB : Tensor3 → Tensor3 → Tensor3 := zipB (fun a b => a * b)

/-- Multiplication of a rank-3 tensor by a rank-1 tensor `v`, broadcast
along the last dimension (`self.v * energy` in the source). -/
def mulV (v : Nat → ℚ) (x : Tensor3) : Tensor3 :=
  ⟨x.size0, x.size1, x.size2, fun i j k => v k * x.data i j k⟩

/-- `torch.sum(x, dim=2)`. -/
def sumDim2 (x : Tensor3) : Tensor2 :=
  ⟨x.size0, x.size1, fun i j => ∑ k ∈ Finset.range x.size2, x.data i j k⟩

/-- Slicing of the last dimension, `x[:, :, lo:hi]`. -/
def slice2 (lo hi : Nat) (x : Tensor3) : Tensor3 :=
  ⟨x.size0, x.size1, hi - lo, fun i j k => x.data i j (lo + k)⟩

/-- `torch.cat((x, y), 2)`. -/
def cat2 (x y : Tensor3) : Tensor3 :=
  ⟨x.size0, x.size1, x.size2 + y.size2,
    fun i j k => if k < x.size2 then x.data i j k else y.data i j (k - x.size2)⟩

/-- `x.expand(n, -1, -1)` for a tensor whose first dimension has size 1. -/
def expand0 (n : Nat) (x : Tensor3) : Tensor3 :=
  ⟨n, x.size1, x.size2, fun _ j k => x.data 0 j k⟩

/-- Pointwise application of the (abstracted) `tanh` to a rank-3 tensor. -/
def tanh3 (th : ℚ → ℚ) (x : Tensor3) : Tensor3 :=
  ⟨x.size0, x.size1, x.size2, fun i j k => th (x.data i j k)⟩

/-- Pointwise application of the (abstracted) `tanh` to a rank-2 tensor. -/
def tanh2 (th : ℚ → ℚ) (x : Tensor2) : Tensor2 :=
  ⟨x.size0, x.size1, fun i j => th (x.data i j)⟩

/-- An `nn.Linear(inF, outF)` layer: `weight` is indexed (out, in). -/
structure Linear where
  inF : Nat
  outF : Nat
  weight : Nat → Nat → ℚ
  bias : Nat → ℚ

/-- A linear layer applied to the last dimension of a rank-3 tensor. -/
def linear3 (l : Linear) (x : Tensor3) : Tensor3 :=
  ⟨x.size0, x.size1, l.outF,
    fun i j o => (∑ k ∈ Finset.range l.inF, l.weight o k * x.data i j k) + l.bias o⟩

/-- A linear layer applied to the last dimension of a rank-2 tensor. -/
def linear2 (l : Linear) (x : Tensor2) : Tensor2 :=
  ⟨x.size0, l.outF,
    fun i o => (∑ k ∈ Finset.range l.inF, l.weight o k * x.data i k) + l.bias o⟩

/-- `torch.cat((x, y), 1)` on rank-2 tensors. -/
def cat1 (x y : Tensor2) : Tensor2 :=
  ⟨x.size0, x.size1 + y.size1,
    fun i k => if k < x.size1 then x.data i k else y.data i (k - x.size1)⟩

/-- `x.squeeze(0)` of a rank-3 tensor whose first dimension has size 1. -/
def squeeze0 (x : Tensor3) : Tensor2 := ⟨x.size1, x.size2, fun j k => x.data 0 j k⟩

/-- `x.squeeze(1)` of a rank-3 tensor whose middle dimension has size 1. -/
def squeeze1 (x : Tensor3) : Tensor2 := ⟨x.size0, x.size2, fun i k => x.data i 0 k⟩

/-- `x.unsqueeze(1)`: insert a middle dimension of size 1.  The inserted
index is ignored by `data` (0 is its only valid value). -/
def unsqueeze1 (x : Tensor2) : Tensor3 :=
  ⟨x.size0, 1, x.size1, fun i _ k => x.data i k⟩

/-- `x.transpose(0, 1)` on a rank-3 tensor. -/
def transpose01 (x : Tensor3) : Tensor3 :=
  ⟨x.size1, x.size0, x.size2, fun i j k => x.data j i k⟩

/-- `x.t()` on a rank-2 tensor. -/
def Tensor2.t (x : Tensor2) : Tensor2 := ⟨x.size1, x.size0, fun i j => x.data j i⟩

/-- `torch.bmm` (used as `attn_weights.bmm(...)` in the source):
batched matrix product of `(B, n, m)` with `(B, m, p)`. -/
def bmm (x y : Tensor3) : Tensor3 :=
  ⟨x.size0, x.size1, y.size2,
    fun b i j => ∑ k ∈ Finset.range x.size2, x.data b i k * y.data b k j⟩

/-- `F.softmax(x, dim=1)` on a rank-2 tensor, with the exponential
abstracted as `e`. -/
def softmaxDim1 (e : ℚ → ℚ) (x : Tensor2) : Tensor2 :=
  ⟨x.size0, x.size1,
    fun i j => e (x.data i j) / ∑ k ∈ Finset.range x.size1, e (x.data i k)⟩

/-- The Python exceptions the embedded code can raise. -/
inductive PyError where
  | valueError (msg : String)
  | unboundLocal (name : String)
  | runtimeError (msg : String)
  deriving DecidableEq

/-- The result of `nn.utils.rnn.pack_padded_sequence`: the embedded data
together with the (validated) lengths.  The packed memory layout itself is
framework-internal and irrelevant to the claims. -/
structure Packed where
  data : Tensor3
  lengths : List Nat

/-- Models the validation performed by the framework's
`nn.utils.rnn.pack_padded_sequence` (with the default `enforce_sorted`):
every length must be positive, no length may exceed the padded time
dimension, and the lengths must be non-increasing. -/
def pack_padded_sequence (x : Tensor3) (lengths : List Nat) : Except PyError Packed :=
  if (∀ l ∈ lengths, 0 < l ∧ l ≤ x.size0) ∧ List.Chain' (fun a b => b ≤ a) lengths then
    Except.ok ⟨x, lengths⟩
  else
    Except.error (PyError.runtimeError "pack_padded_sequence: invalid lengths")

/-! ### The `Attn` module (source lines 68-109) -/

/-- The state of an initialised `Attn` module.  `attn` and `v` are the
optional learned layers: `attn` exists for methods "general" and
"concat", `v` only for "concat". -/
structure AttnParams where
  method : String
  hidden_size : Nat
  attn : Option Linear
  v : Option (Nat → ℚ)

/-- `Attn.__init__(method, hidden_size)`.  `lw`, `lb` and `vInit` supply
the framework's random initial values for the layers that get created.
Raises `ValueError` when `method` is not one of the three recognised
names; otherwise builds the layers the chosen method needs. -/
def Attn.init (method : String) (hidden_size : Nat) (lw : Nat → Nat → ℚ)
    (lb : Nat → ℚ) (vInit : Nat → ℚ) : Except PyError AttnParams :=
  if method ∉ ["dot", "general", "concat"] then
    Except.error (PyError.valueError (method ++ " is not an appropriate attention method."))
  else
    Except.ok
      ⟨method, hidden_size,
        if method = "general" then some ⟨hidden_size, hidden_size, lw, lb⟩
        else if method = "concat" then some ⟨hidden_size * 2, hidden_size, lw, lb⟩
        else none,
        if method = "concat" then some vInit else none⟩

/-- `Attn.dot_score`: `torch.sum(hidden * encoder_output, dim=2)`. -/
def Attn.dot_score (hidden encoder_output : Tensor3) : Tensor2 :=
  sumDim2 (mulB hidden encoder_output)

/-- `Attn.general_score`: `torch.sum(hidden * self.attn(encoder_output), dim=2)`. -/
def Attn.general_score (attn : Linear) (hidden encoder_output : Tensor3) : Tensor2 :=
  sumDim2 (mulB hidden (linear3 attn encoder_output))

/-- `Attn.concat_score`:
`torch.sum(self.v * self.attn(torch.cat((hidden.expand(T, -1, -1), encoder_output), 2)).tanh(), dim=2)`. -/
def Attn.concat_score (th : ℚ → ℚ) (attn : Linear) (v : Nat → ℚ)
    (hidden encoder_output : Tensor3) : Tensor2 :=
  sumDim2 (mulV v (tanh3 th
    (linear3 attn (cat2 (expand0 encoder_output.size0 hidden) encoder_output))))

/-- The `if/elif` dispatch on `self.method` computing `attn_energies` in
`Attn.forward`.  A method outside the three recognised names would leave
the Python local `attn_energies` unbound; layers missing from `self`
would be an `AttributeError` (unreachable for states built by
`Attn.init`). -/
def Attn.scores (th : ℚ → ℚ) (self : AttnParams) (hidden encoder_outputs : Tensor3) :
    Except PyError Tensor2 :=
  if self.method = "general" then
    match self.attn with
    | some l => Except.ok (Attn.general_score l hidden encoder_outputs)
    | none => Except.error (PyError.runtimeError "AttributeError: attn")
  else if self.method = "concat" then
    match self.attn, self.v with
    | some l, some v => Except.ok (Attn.concat_score th l v hidden encoder_outputs)
    | _, _ => Except.error (PyError.runtimeError "AttributeError: attn or v")
  else if self.method = "dot" then
    Except.ok (Attn.dot_score hidden encoder_outputs)
  else
    Except.error (PyError.unboundLocal "attn_energies")

/-- `Attn.forward`: compute the energies by the configured method,
transpose, softmax over dim 1, and add a middle dimension. -/
def Attn.forward (e th : ℚ → ℚ) (self : AttnParams) (hidden encoder_outputs : Tensor3) :
    Except PyError Tensor3 := do
  let attn_energies ← Attn.scores th self hidden encoder_outputs
  Except.ok (unsqueeze1 (softmaxDim1 e attn_energies.t))

/-! ### The `EncoderRNN` module (source lines 22-64) -/

/-- The function computed by a framework bidirectional recurrent module,
from the packed embedded input, the lengths and the optional initial
hidden state to the unpacked (padded) output tensor and the final hidden
state.  It stands for the composite of the `nn.LSTM`/`nn.GRU` call and
`pad_packed_sequence`, both framework code. -/
abbrev BiRNN (σ : Type) := Tensor3 → List Nat → Option σ → Tensor3 × σ

/-- The function computed by a framework unidirectional recurrent module
on a single step, as used by the decoder. -/
abbrev UniRNN (σ : Type) := Tensor3 → σ → Tensor3 × σ

/-- The state of an initialised `EncoderRNN`.  Exactly one of `lstm` and
`gru` is populated when the global `RNN_TYPE` is recognised; neither is
when it is not. -/
structure EncoderRNNState (σ : Type) where
  n_layers : Nat
  hidden_size : Nat
  embedding : Nat → Nat → ℚ
  lstm : Option (BiRNN σ)
  gru : Option (BiRNN σ)

/-- `EncoderRNN.__init__`.  `mkLSTM`/`mkGRU` are the framework
constructors `nn.LSTM`/`nn.GRU` applied to
`(input_size, hidden_size, n_layers, dropout)` (with
`bidirectional=True`).  No validation is performed: an unrecognised
`rnn_type` simply creates no recurrent layer. -/
def EncoderRNN.init {σ : Type} (rnn_type : String)
    (mkLSTM mkGRU : Nat → Nat → Nat → ℚ → BiRNN σ)
    (hidden_size : Nat) (embedding : Nat → Nat → ℚ) (n_layers : Nat) (dropout : ℚ) :
    EncoderRNNState σ :=
  ⟨n_layers, hidden_size, embedding,
    if rnn_type = "LSTM" then
      some (mkLSTM hidden_size hidden_size n_layers (if n_layers = 1 then 0 else dropout))
    else none,
    if rnn_type = "GRU" then
      some (mkGRU hidden_size hidden_size n_layers (if n_layers = 1 then 0 else dropout))
    else none⟩

/-- `EncoderRNN.forward(input_seq, input_lengths, hidden)`: embed the
word indices, pack (validating the lengths), run the configured
bidirectional RNN, unpack, and sum the two directions' halves of the
feature dimension.  With an unrecognised `RNN_TYPE` the Python local
`outputs` is never bound and `pad_packed_sequence(outputs)` raises an
unbound-local error. -/
def EncoderRNN.forward {σ : Type} (rnn_type : String) (self : EncoderRNNState σ)
    (input_seq : Nat → Nat → Nat) (T B : Nat) (input_lengths : List Nat)
    (hidden : Option σ) : Except PyError (Tensor3 × σ) := do
  let embedded : Tensor3 := ⟨T, B, self.hidden_size, fun t b f => self.embedding (input_seq t b) f⟩
  let packed ← pack_padded_sequence embedded input_lengths
  let res ←
    if rnn_type = "LSTM" then
      match self.lstm with
      | some rnn => Except.ok (rnn packed.data packed.lengths none)
      | none => Except.error (PyError.runtimeError "AttributeError: lstm")
    else if rnn_type = "GRU" then
      match self.gru with
      | some rnn => Except.ok (rnn packed.data packed.lengths hidden)
      | none => Except.error (PyError.runtimeError "AttributeError: gru")
    else Except.error (PyError.unboundLocal "outputs")
  let outputs := res.1
  let outputs :=
    add3 (slice2 0 self.hidden_size outputs) (slice2 self.hidden_size outputs.size2 outputs)
  Except.ok (outputs, res.2)

/-! ### The `LuongAttnDecoderRNN` module (source lines 112-173) -/

/-- The state of an initialised `LuongAttnDecoderRNN`. -/
structure DecoderState (σ : Type) where
  attn_model : String
  hidden_size : Nat
  output_size : Nat
  n_layers : Nat
  dropout : ℚ
  embedding : Nat → Nat → ℚ
  lstm : Option (UniRNN σ)
  gru : Option (UniRNN σ)
  concat : Linear
  out : Linear
  attn : AttnParams

/-- `LuongAttnDecoderRNN.__init__`.  `mkLSTM`/`mkGRU` are the framework
constructors applied to `(input_size, hidden_size, n_layers, dropout)`;
`lw`/`lb`/`vInit` supply the random initial layer values.  The only way
this can raise is the `ValueError` propagated from `Attn.__init__`; the
`rnn_type` dispatch performs no validation. -/
def LuongAttnDecoderRNN.init {σ : Type} (rnn_type : String)
    (mkLSTM mkGRU : Nat → Nat → Nat → ℚ → UniRNN σ)
    (lw : Nat → Nat → ℚ) (lb : Nat → ℚ) (vInit : Nat → ℚ)
    (attn_model : String) (embedding : Nat → Nat → ℚ)
    (hidden_size output_size n_layers : Nat) (dropout : ℚ) :
    Except PyError (DecoderState σ) := do
  let attn ← Attn.init attn_model hidden_size lw lb vInit
  Except.ok
    ⟨attn_model, hidden_size, output_size, n_layers, dropout, embedding,
      if rnn_type = "LSTM" then
        some (mkLSTM hidden_size hidden_size n_layers (if n_layers = 1 then 0 else dropout))
      else none,
      if rnn_type = "GRU" then
        some (mkGRU hidden_size hidden_size n_layers (if n_layers = 1 then 0 else dropout))
      else none,
      ⟨hidden_size * 2, hidden_size, lw, lb⟩,
      ⟨hidden_size, output_size, lw, lb⟩,
      attn⟩

/-- `LuongAttnDecoderRNN.forward(input_step, last_hidden, encoder_outputs)`
for one decoding step.  `dropoutF` is the framework's (stochastic)
`nn.Dropout` application; `e`/`th` abstract the softmax exponential and
`tanh`.  With an unrecognised `RNN_TYPE` the Python local `rnn_output`
is never bound and its first use raises an unbound-local error. -/
def LuongAttnDecoderRNN.forward {σ : Type} (rnn_type : String) (e th : ℚ → ℚ)
    (dropoutF : Tensor3 → Tensor3) (self : DecoderState σ)
    (input_step : Nat → Nat → Nat) (B : Nat) (last_hidden : σ)
    (encoder_outputs : Tensor3) : Except PyError (Tensor2 × σ) := do
  let embedded : Tensor3 :=
    ⟨1, B, self.hidden_size, fun t b f => self.embedding (input_step t b) f⟩
  let embedded := dropoutF embedded
  let res ←
    if rnn_type = "LSTM" then
      match self.lstm with
      | some rnn => Except.ok (rnn embedded last_hidden)
      | none => Except.error (PyError.runtimeError "AttributeError: lstm")
    else if rnn_type = "GRU" then
      match self.gru with
      | some rnn => Except.ok (rnn embedded last_hidden)
      | none => Except.error (PyError.runtimeError "AttributeError: gru")
    else Except.error (PyError.unboundLocal "rnn_output")
  let rnn_output := res.1
  let hidden := res.2
  let attn_weights ← Attn.forward e th self.attn rnn_output encoder_outputs
  let context := bmm attn_weights (transpose01 encoder_outputs)
  let rnn_output2 := squeeze0 rnn_output
  let context2 := squeeze1 context
  let concat_input := cat1 rnn_output2 context2
  let concat_output := tanh2 th (linear2 self.concat concat_input)
  let output := linear2 self.out concat_output
  let output := softmaxDim1 e output
  Except.ok (output, hidden)

/-! ### Module-level statements (source lines 179-225) -/

/-- The configuration of one instantiated `torch.optim` optimizer. -/
structure AdamConfig where
  algo : String
  params : String
  lr : ℚ
  weight_decay : ℚ
  deriving DecidableEq

/-- One module-level statement of `model.py`, as far as the claims are
concerned. -/
inductive ModuleOp where
  | printMsg (s : String)
  | buildEmbedding (numWords hidden : Nat)
  | buildEncoder (hidden nLayers : Nat)
  | buildDecoder (attnModel : String) (hidden outputSize nLayers : Nat)
  | toDevice (moduleName : String)
  | buildOptimizer (cfg : AdamConfig)
  | cudaMove (stateKey : String)
  deriving DecidableEq

/-- The sequence of module-level statements executed at import time,
parametrised by the `config`/`dataset` values (`LEARNING_RATE`,
`DECODER_LEARNING_RATIO`, sizes) and by the lists of tensors found in the
two optimizers' `state` dicts when the final `.cuda()` loops run. -/
def moduleScript (numWords hidden encLayers decLayers : Nat) (attnModel : String)
    (lr ratio : ℚ) (encStateTensors decStateTensors : List String) : List ModuleOp :=
  [ModuleOp.printMsg "Building encoder and decoder ...",
    ModuleOp.buildEmbedding numWords hidden,
    ModuleOp.buildEncoder hidden encLayers,
    ModuleOp.buildDecoder attnModel hidden numWords decLayers,
    ModuleOp.toDevice "encoder",
    ModuleOp.toDevice "decoder",
    ModuleOp.printMsg "Models built and ready to go!",
    ModuleOp.printMsg "Building optimizers ...",
    ModuleOp.buildOptimizer ⟨"Adam", "encoder.parameters", lr, 0⟩,
    ModuleOp.buildOptimizer ⟨"Adam", "decoder.parameters", lr * ratio, 1 / 100000⟩,
    ModuleOp.printMsg "Nubmer of parameters for Encoder:",
    ModuleOp.printMsg "Nubmer of parameters for Decoder:"]
  ++ encStateTensors.map ModuleOp.cudaMove
  ++ decStateTensors.map ModuleOp.cudaMove

/-- The script actually executed at import time: `torch.optim.Adam`
populates its `state` dict lazily on the first `step()`, so right after
construction both state dicts are empty and the two `.cuda()` loops run
zero iterations. -/
def importScript (numWords hidden encLayers decLayers : Nat) (attnModel : String)
    (lr ratio : ℚ) : List ModuleOp :=
  moduleScript numWords hidden encLayers decLayers attnModel lr ratio [] []

/-- Whether a module-level statement is a device-placement operation
(`.to(DEVICE)` or `.cuda()`). -/
def isDeviceOp : ModuleOp → Bool
  | ModuleOp.toDevice _ => true
  | ModuleOp.cudaMove _ => true
  | _ => false

/-- The number of device-placement operations in a script. -/
def deviceOpCount (script : List ModuleOp) : Nat := (script.filter isDeviceOp).length

/-- The optimizer configurations a script instantiates, in order. -/
def optimizersOf (script : List ModuleOp) : List AdamConfig :=
  script.filterMap fun op =>
    match op with
    | ModuleOp.buildOptimizer cfg => some cfg
    | _ => none

/-- Modelled from the spec: device placement is delegated to the
framework, so `.to(DEVICE)` succeeds on the device selected by the
missing `config.py` whether or not CUDA is available, while `.cuda()`
requires an available CUDA device.  Every other statement always
succeeds. -/
def runOp (cudaAvailable : Bool) : ModuleOp → Except PyError Unit
  | ModuleOp.cudaMove _ =>
      if cudaAvailable then Except.ok ()
      else Except.error (PyError.runtimeError "CUDA not available")
  | _ => Except.ok ()

/-- Run a module-level script, stopping at the first raised exception. -/
def runModule (cudaAvailable : Bool) : List ModuleOp → Except PyError Unit
  | [] => Except.ok ()
  | op :: rest => do
      let _ ← runOp cudaAvailable op
      runModule cudaAvailable rest

/-! ### Helper lemmas -/

/-- Broadcasting at an in-range index is the identity. -/
theorem bidx_of_lt {n i : Nat} (h : i < n) : bidx n i = i := by
  unfold bidx
  split
  · omega
  · rfl

/-- Broadcasting a dimension of size 1 always reads index 0. -/
theorem bidx_one (i : Nat) : bidx 1 i = 0 := rfl

/-- Packing succeeds on valid lengths and returns the input unchanged. -/
theorem pack_ok (x : Tensor3) (lengths : List Nat)
    (h1 : ∀ l ∈ lengths, 0 < l ∧ l ≤ x.size0)
    (h2 : List.Chain' (fun a b => b ≤ a) lengths) :
    pack_padded_sequence x lengths = Except.ok ⟨x, lengths⟩ := by
  unfold pack_padded_sequence
  rw [if_pos ⟨h1, h2⟩]

/-- Packing fails on lengths that are not sorted in decreasing order. -/
theorem pack_err_unsorted (x : Tensor3) (lengths : List Nat)
    (h : ¬ List.Chain' (fun a b => b ≤ a) lengths) :
    pack_padded_sequence x lengths
      = Except.error (PyError.runtimeError "pack_padded_sequence: invalid lengths") := by
  unfold pack_padded_sequence
  rw [if_neg]
  intro hc
  exact h hc.2

/-- Softmax entries are non-negative whenever `e` is positive. -/
theorem softmaxDim1_nonneg (e : ℚ → ℚ) (hpos : ∀ x, 0 < e x) (x : Tensor2) (i j : Nat) :
    0 ≤ (softmaxDim1 e x).data i j := by
  simp only [softmaxDim1]
  exact div_nonneg (le_of_lt (hpos _)) (Finset.sum_nonneg fun k _ => le_of_lt (hpos _))

/-- Each softmax row sums to 1 over its (non-empty) normalised dimension. -/
theorem softmaxDim1_row_sum (e : ℚ → ℚ) (hpos : ∀ x, 0 < e x) (x : Tensor2) (T : Nat)
    (hsz : x.size1 = T) (hT : 1 ≤ T) (i : Nat) :
    ∑ j ∈ Finset.range T, (softmaxDim1 e x).data i j = 1 := by
  simp only [softmaxDim1]
  rw [hsz, ← Finset.sum_div]
  apply div_self
  have hpos' : 0 < ∑ k ∈ Finset.range T, e (x.data i k) :=
    Finset.sum_pos (fun k _ => hpos _) (Finset.nonempty_range_iff.mpr (by omega))
  exact ne_of_gt hpos'

/-- Dispatch of `Attn.forward` for method "dot". -/
theorem attn_forward_dot_eq (e th : ℚ → ℚ) (p : AttnParams) (hidden enc : Tensor3)
    (hm : p.method = "dot") :
    Attn.forward e th p hidden enc
      = Except.ok (unsqueeze1 (softmaxDim1 e (Tensor2.t (Attn.dot_score hidden enc)))) := by
  unfold Attn.forward Attn.scores
  rw [hm]
  rfl

/-- Dispatch of `Attn.forward` for method "general". -/
theorem attn_forward_general_eq (e th : ℚ → ℚ) (p : AttnParams) (l : Linear)
    (hidden enc : Tensor3) (hm : p.method = "general") (ha : p.attn = some l) :
    Attn.forward e th p hidden enc
      = Except.ok (unsqueeze1 (softmaxDim1 e (Tensor2.t (Attn.general_score l hidden enc)))) := by
  unfold Attn.forward Attn.scores
  rw [hm, ha]
  rfl

/-- Dispatch of `Attn.forward` for method "concat". -/
theorem attn_forward_concat_eq (e th : ℚ → ℚ) (p : AttnParams) (l : Linear)
    (v : Nat → ℚ) (hidden enc : Tensor3) (hm : p.method = "concat")
    (ha : p.attn = some l) (hv : p.v = some v) :
    Attn.forward e th p hidden enc
      = Except.ok (unsqueeze1 (softmaxDim1 e (Tensor2.t (Attn.concat_score th l v hidden enc)))) := by
  unfold Attn.forward Attn.scores
  rw [hm, ha, hv]
  rfl

/-- Reduction of a successful monadic step of `Except`. -/
theorem except_bind_ok {α β : Type} (a : α) (f : α → Except PyError β) :
    (Bind.bind (Except.ok a) f : Except PyError β) = f a := rfl

/-- Reduction of a failed monadic step of `Except`. -/
theorem except_bind_err {α β : Type} (a : PyError) (f : α → Except PyError β) :
    (Bind.bind (Except.error a) f : Except PyError β) = Except.error a := rfl

/-- A monadic chain cannot raise an error that neither side raises. -/
theorem except_bind_ne_error {α β : Type} (x : Except PyError α)
    (f : α → Except PyError β) (err : PyError)
    (hx : x ≠ Except.error err) (hf : ∀ a, f a ≠ Except.error err) :
    Bind.bind x f ≠ Except.error err := by
  cases x with
  | error a =>
      rw [except_bind_err]
      intro h
      exact hx (congrArg Except.error (Except.error.inj h))
  | ok a => rw [except_bind_ok]; exact hf a

/-- `Attn.forward` never raises a `ValueError`: its only failure modes
are the unbound local for an unrecognised method and the (unreachable
for initialised states) missing-attribute errors. -/
theorem attn_forward_no_valueError (e th : ℚ → ℚ) (p : AttnParams)
    (hidden enc : Tensor3) (msg : String) :
    Attn.forward e th p hidden enc ≠ Except.error (PyError.valueError msg) := by
  simp only [Attn.forward, Attn.scores]
  split
  · split <;> simp [except_bind_ok, except_bind_err]
  · split
    · split <;> simp [except_bind_ok, except_bind_err]
    · split
      · simp [except_bind_ok]
      · simp [except_bind_err]

/-- `EncoderRNN.forward` never raises a `ValueError`: it performs no
input validation of its own (its failures are the framework packing
error and the unbound local). -/
theorem encoder_forward_no_valueError {σ : Type} (rnn_type : String)
    (self : EncoderRNNState σ) (input_seq : Nat → Nat → Nat) (T B : Nat)
    (lengths : List Nat) (hidden : Option σ) (msg : String) :
    EncoderRNN.forward rnn_type self input_seq T B lengths hidden
      ≠ Except.error (PyError.valueError msg) := by
  simp only [EncoderRNN.forward, pack_padded_sequence]
  split
  · simp only [except_bind_ok]
    split
    · split <;> simp [except_bind_ok, except_bind_err]
    · split
      · split <;> simp [except_bind_ok, except_bind_err]
      · simp [except_bind_err]
  · simp [except_bind_err]

/-- `LuongAttnDecoderRNN.forward` never raises a `ValueError`: it
performs no input validation of its own. -/
theorem decoder_forward_no_valueError {σ : Type} (rnn_type : String) (e th : ℚ → ℚ)
    (dropoutF : Tensor3 → Tensor3) (self : DecoderState σ)
    (input_step : Nat → Nat → Nat) (B : Nat) (lh : σ) (enc : Tensor3) (msg : String) :
    LuongAttnDecoderRNN.forward rnn_type e th dropoutF self input_step B lh enc
      ≠ Except.error (PyError.valueError msg) := by
  simp only [LuongAttnDecoderRNN.forward]
  split
  · split
    · simp only [except_bind_ok]
      refine except_bind_ne_error _ _ _ (attn_forward_no_valueError e th self.attn _ enc msg) ?_
      intro w
      simp
    · simp [except_bind_err]
  · split
    · split
      · simp only [except_bind_ok]
        refine except_bind_ne_error _ _ _
          (attn_forward_no_valueError e th self.attn _ enc msg) ?_
        intro w
        simp
      · simp [except_bind_err]
    · simp [except_bind_err]

/-! ### Claim theorems -/

/-- C1: the only validation in the module is the value check on the
attention-method name: `Attn.__init__` succeeds exactly on "dot",
"general" and "concat" and raises otherwise;
`LuongAttnDecoderRNN.__init__` — the only other constructor whose code
can raise — fails exactly when that same `Attn.__init__` check does
(its own `rnn_type` dispatch performs no validation, and
`EncoderRNN.__init__` is a total function in this embedding, performing
no checks at all); and no forward method performs input validation:
`Attn.forward`, `EncoderRNN.forward` and `LuongAttnDecoderRNN.forward`
never raise a `ValueError` on any input. -/
theorem attn_method_validation {σ : Type}
    (mkUL mkUG : Nat → Nat → Nat → ℚ → UniRNN σ) (rnn_type method : String)
    (lw : Nat → Nat → ℚ) (lb vInit : Nat → ℚ) (emb : Nat → Nat → ℚ)
    (H O nl : Nat) (dp : ℚ) :
    ((Attn.init method H lw lb vInit).isOk = true
      ↔ (method = "dot" ∨ method = "general" ∨ method = "concat"))
    ∧ ((LuongAttnDecoderRNN.init rnn_type mkUL mkUG lw lb vInit method emb H O nl dp).isOk = true
      ↔ (Attn.init method H lw lb vInit).isOk = true)
    ∧ (∀ (e th : ℚ → ℚ) (p : AttnParams) (hidden enc : Tensor3) (msg : String),
        Attn.forward e th p hidden enc ≠ Except.error (PyError.valueError msg))
    ∧ (∀ (self : EncoderRNNState σ) (input_seq : Nat → Nat → Nat) (T B : Nat)
          (lengths : List Nat) (hidden : Option σ) (msg : String),
        EncoderRNN.forward rnn_type self input_seq T B lengths hidden
          ≠ Except.error (PyError.valueError msg))
    ∧ (∀ (e th : ℚ → ℚ) (dropoutF : Tensor3 → Tensor3) (self : DecoderState σ)
          (input_step : Nat → Nat → Nat) (B : Nat) (lh : σ) (enc : Tensor3) (msg : String),
        LuongAttnDecoderRNN.forward rnn_type e th dropoutF self input_step B lh enc
          ≠ Except.error (PyError.valueError msg)) := by
  refine ⟨?_, ?_, ?_, ?_, ?_⟩
  · by_cases hm : method ∈ ["dot", "general", "concat"]
    · rw [Attn.init, if_neg (not_not_intro hm)]
      simp only [Except.isOk, Except.toBool, true_iff]
      simpa using hm
    · rw [Attn.init, if_pos hm]
      simp only [Except.isOk, Except.toBool, false_iff]
      simpa using hm
  · unfold LuongAttnDecoderRNN.init
    cases h : Attn.init method H lw lb vInit <;> simp [h] <;> rfl
  · intro e th p hidden enc msg
    exact attn_forward_no_valueError e th p hidden enc msg
  · intro self input_seq T B lengths hidden msg
    exact encoder_forward_no_valueError rnn_type self input_seq T B lengths hidden msg
  · intro e th dropoutF self input_step B lh enc msg
    exact decoder_forward_no_valueError rnn_type e th dropoutF self input_step B lh enc msg

/-- C3: alignment-scoring dispatch.  For method "dot" the energy at each
(time, batch) position is the feature-wise sum of the elementwise product
of the (broadcast) hidden state with the encoder output; for "general"
the same sum with the encoder output first passed through the learned
linear map; and `Attn.forward` returns exactly the transposed energies,
softmax-normalised, with an added middle dimension. -/
theorem attn_dot_general_scoring (e th : ℚ → ℚ) (hidden enc : Tensor3)
    (T B H : Nat) (l : Linear)
    (he0 : enc.size0 = T) (he1 : enc.size1 = B) (he2 : enc.size2 = H)
    (hh0 : hidden.size0 = 1) (hh1 : hidden.size1 = B) (hh2 : hidden.size2 = H)
    (hin : l.inF = H) (hout : l.outF = H) :
    (∀ t b, t < T → b < B →
      (Attn.dot_score hidden enc).data t b
        = ∑ f ∈ Finset.range H, hidden.data 0 b f * enc.data t b f)
    ∧ (∀ t b, t < T → b < B →
      (Attn.general_score l hidden enc).data t b
        = ∑ f ∈ Finset.range H, hidden.data 0 b f *
            ((∑ g ∈ Finset.range H, l.weight f g * enc.data t b g) + l.bias f))
    ∧ (∀ p : AttnParams, p.method = "dot" →
        Attn.forward e th p hidden enc
          = Except.ok (unsqueeze1 (softmaxDim1 e (Tensor2.t (Attn.dot_score hidden enc)))))
    ∧ (∀ p : AttnParams, p.method = "general" → p.attn = some l →
        Attn.forward e th p hidden enc
          = Except.ok (unsqueeze1 (softmaxDim1 e (Tensor2.t (Attn.general_score l hidden enc))))) := by
  refine ⟨?_, ?_, fun p hm => attn_forward_dot_eq e th p hidden enc hm,
    fun p hm ha => attn_forward_general_eq e th p l hidden enc hm ha⟩
  · intro t b ht hb
    simp only [Attn.dot_score, sumDim2, mulB, zipB]
    rw [hh0, hh1, hh2, he0, he1, he2, Nat.max_self]
    refine Finset.sum_congr rfl fun f hf => ?_
    have hfH : f < H := Finset.mem_range.mp hf
    rw [bidx_one, bidx_of_lt hb, bidx_of_lt hfH, bidx_of_lt ht]
  · intro t b ht hb
    simp only [Attn.general_score, sumDim2, mulB, zipB, linear3]
    rw [hh0, hh1, hh2, he0, he1, hin, hout, Nat.max_self]
    refine Finset.sum_congr rfl fun f hf => ?_
    have hfH : f < H := Finset.mem_range.mp hf
    rw [bidx_one, bidx_of_lt hb, bidx_of_lt hfH, bidx_of_lt ht]

/-- C5: for every valid method and every hidden/encoder-output pair of
matching shapes (hidden of shape `(1, B, H)`, encoder outputs of shape
`(T, B, H)` with at least one time step), `Attn.forward` on an
`Attn.init`-built state returns a tensor of shape `(B, 1, T)` whose
entries are non-negative and whose rows sum to 1 over the time
dimension, for any positive softmax exponential. -/
theorem attn_forward_distribution (e th : ℚ → ℚ) (hpos : ∀ x, 0 < e x)
    (method : String) (hm : method = "dot" ∨ method = "general" ∨ method = "concat")
    (H : Nat) (lw : Nat → Nat → ℚ) (lb vInit : Nat → ℚ) (p : AttnParams)
    (hinit : Attn.init method H lw lb vInit = Except.ok p)
    (hidden enc : Tensor3) (T B : Nat) (hT : 1 ≤ T)
    (he0 : enc.size0 = T) (he1 : enc.size1 = B)
    (hh0 : hidden.size0 = 1) (hh1 : hidden.size1 = B) :
    ∃ w : Tensor3, Attn.forward e th p hidden enc = Except.ok w
      ∧ w.size0 = B ∧ w.size1 = 1 ∧ w.size2 = T
      ∧ (∀ b t, 0 ≤ w.data b 0 t)
      ∧ (∀ b, ∑ t ∈ Finset.range T, w.data b 0 t = 1) := by
  rcases hm with hm | hm | hm <;> subst hm
  · have hp : p = ⟨"dot", H, none, none⟩ := by
      have h0 : Attn.init "dot" H lw lb vInit = Except.ok ⟨"dot", H, none, none⟩ := rfl
      rw [h0] at hinit
      exact (Except.ok.inj hinit).symm
    subst hp
    have hsz : (Tensor2.t (Attn.dot_score hidden enc)).size1 = T := by
      simp only [Tensor2.t, Attn.dot_score, sumDim2, mulB, zipB]
      rw [hh0, he0]
      omega
    refine ⟨_, attn_forward_dot_eq e th _ hidden enc rfl, ?_, rfl, ?_,
      fun b t => softmaxDim1_nonneg e hpos _ b t,
      fun b => softmaxDim1_row_sum e hpos _ T hsz hT b⟩
    · simp only [unsqueeze1, softmaxDim1, Tensor2.t, Attn.dot_score, sumDim2, mulB, zipB]
      rw [hh1, he1, Nat.max_self]
    · exact hsz
  · have hp : p = ⟨"general", H, some ⟨H, H, lw, lb⟩, none⟩ := by
      have h0 : Attn.init "general" H lw lb vInit
          = Except.ok ⟨"general", H, some ⟨H, H, lw, lb⟩, none⟩ := rfl
      rw [h0] at hinit
      exact (Except.ok.inj hinit).symm
    subst hp
    have hsz : (Tensor2.t (Attn.general_score ⟨H, H, lw, lb⟩ hidden enc)).size1 = T := by
      simp only [Tensor2.t, Attn.general_score, sumDim2, mulB, zipB, linear3]
      rw [hh0, he0]
      omega
    refine ⟨_, attn_forward_general_eq e th _ ⟨H, H, lw, lb⟩ hidden enc rfl rfl, ?_, rfl, ?_,
      fun b t => softmaxDim1_nonneg e hpos _ b t,
      fun b => softmaxDim1_row_sum e hpos _ T hsz hT b⟩
    · simp only [unsqueeze1, softmaxDim1, Tensor2.t, Attn.general_score, sumDim2, mulB, zipB,
        linear3]
      rw [hh1, he1, Nat.max_self]
    · exact hsz
  · have hp : p = ⟨"concat", H, some ⟨H * 2, H, lw, lb⟩, some vInit⟩ := by
      have h0 : Attn.init "concat" H lw lb vInit
          = Except.ok ⟨"concat", H, some ⟨H * 2, H, lw, lb⟩, some vInit⟩ := rfl
      rw [h0] at hinit
      exact (Except.ok.inj hinit).symm
    subst hp
    have hsz : (Tensor2.t (Attn.concat_score th ⟨H * 2, H, lw, lb⟩ vInit hidden enc)).size1 = T := by
      simp only [Tensor2.t, Attn.concat_score, sumDim2, mulV, tanh3, linear3, cat2, expand0]
      exact he0
    refine ⟨_, attn_forward_concat_eq e th _ ⟨H * 2, H, lw, lb⟩ vInit hidden enc rfl rfl rfl,
      ?_, rfl, ?_,
      fun b t => softmaxDim1_nonneg e hpos _ b t,
      fun b => softmaxDim1_row_sum e hpos _ T hsz hT b⟩
    · simp only [unsqueeze1, softmaxDim1, Tensor2.t, Attn.concat_score, sumDim2, mulV, tanh3,
        linear3, cat2, expand0]
      exact hh1
    · exact hsz

/-- C7: concat alignment scoring.  The energy is `tanh` of the learned
linear map applied to the concatenation (along the feature dimension) of
the hidden state — expanded across all encoder time steps — with the
encoder outputs, and the score at each (time, batch) position is the sum
over the feature dimension of the learned vector `v` times that energy;
the linear map splits as one weight block acting on the hidden state
and one acting on the encoder output. -/
theorem attn_concat_score_formula (th : ℚ → ℚ) (v : Nat → ℚ) (l : Linear)
    (hidden enc : Tensor3) (H : Nat)
    (hh2 : hidden.size2 = H) (he2 : enc.size2 = H)
    (hin : l.inF = H + H) (hout : l.outF = H) (t b : Nat) :
    (Attn.concat_score th l v hidden enc).data t b
      = ∑ f ∈ Finset.range H, v f * th
          (((∑ g ∈ Finset.range H, l.weight f g * hidden.data 0 b g)
            + ∑ g ∈ Finset.range H, l.weight f (H + g) * enc.data t b g) + l.bias f) := by
  simp only [Attn.concat_score, sumDim2, mulV, tanh3, linear3, cat2, expand0]
  rw [hout, hin]
  refine Finset.sum_congr rfl fun f hf => ?_
  congr 2
  rw [Finset.sum_range_add]
  congr 1
  congr 1
  · refine Finset.sum_congr rfl fun g hg => ?_
    have hgH : g < H := Finset.mem_range.mp hg
    rw [if_pos (by omega : g < hidden.size2)]
  · refine Finset.sum_congr rfl fun g hg => ?_
    rw [if_neg (by omega : ¬ H + g < hidden.size2), hh2, Nat.add_sub_cancel_left]

/-- C2: bidirectional merge.  For valid decreasing lengths,
`EncoderRNN.forward` returns the elementwise sum of the two
feature-halves of the configured bidirectional RNN's unpacked output
`raw`: the result's feature dimension is `hidden_size`, and at every
time step and batch position its entry at feature `f` is
`raw[t, b, f] + raw[t, b, hidden_size + f]`. -/
theorem encoder_forward_bidirectional_merge {σ : Type}
    (mkLSTM mkGRU : Nat → Nat → Nat → ℚ → BiRNN σ) (rnn_type : String)
    (hidden_size : Nat) (emb : Nat → Nat → ℚ) (n_layers : Nat) (dropout : ℚ)
    (input_seq : Nat → Nat → Nat) (T B : Nat) (lengths : List Nat) (hid0 : Option σ)
    (raw : Tensor3) (hfin : σ)
    (hrnn : rnn_type = "LSTM" ∨ rnn_type = "GRU")
    (hlen : ∀ l ∈ lengths, 0 < l ∧ l ≤ T)
    (hsorted : List.Chain' (fun a b => b ≤ a) lengths)
    (hraw : (if rnn_type = "LSTM" then
          mkLSTM hidden_size hidden_size n_layers (if n_layers = 1 then 0 else dropout)
            ⟨T, B, hidden_size, fun t b f => emb (input_seq t b) f⟩ lengths none
        else
          mkGRU hidden_size hidden_size n_layers (if n_layers = 1 then 0 else dropout)
            ⟨T, B, hidden_size, fun t b f => emb (input_seq t b) f⟩ lengths hid0)
      = (raw, hfin))
    (hbi : raw.size2 = 2 * hidden_size) :
    EncoderRNN.forward rnn_type
        (EncoderRNN.init rnn_type mkLSTM mkGRU hidden_size emb n_layers dropout)
        input_seq T B lengths hid0
      = Except.ok (add3 (slice2 0 hidden_size raw) (slice2 hidden_size raw.size2 raw), hfin)
    ∧ (add3 (slice2 0 hidden_size raw) (slice2 hidden_size raw.size2 raw)).size2 = hidden_size
    ∧ ∀ t b f, t < raw.size0 → b < raw.size1 → f < hidden_size →
        (add3 (slice2 0 hidden_size raw) (slice2 hidden_size raw.size2 raw)).data t b f
          = raw.data t b f + raw.data t b (hidden_size + f) := by
  refine ⟨?_, ?_, ?_⟩
  · rcases hrnn with h | h <;> subst h
    · rw [if_pos rfl] at hraw
      have h1 : raw = (mkLSTM hidden_size hidden_size n_layers
          (if n_layers = 1 then 0 else dropout)
          ⟨T, B, hidden_size, fun t b f => emb (input_seq t b) f⟩ lengths none).1 := by
        rw [hraw]
      have h2 : hfin = (mkLSTM hidden_size hidden_size n_layers
          (if n_layers = 1 then 0 else dropout)
          ⟨T, B, hidden_size, fun t b f => emb (input_seq t b) f⟩ lengths none).2 := by
        rw [hraw]
      simp only [EncoderRNN.forward, EncoderRNN.init, reduceIte]
      rw [pack_ok ⟨T, B, hidden_size, fun t b f => emb (input_seq t b) f⟩ lengths hlen hsorted,
        h1, h2]
      rfl
    · rw [if_neg (by decide)] at hraw
      have h1 : raw = (mkGRU hidden_size hidden_size n_layers
          (if n_layers = 1 then 0 else dropout)
          ⟨T, B, hidden_size, fun t b f => emb (input_seq t b) f⟩ lengths hid0).1 := by
        rw [hraw]
      have h2 : hfin = (mkGRU hidden_size hidden_size n_layers
          (if n_layers = 1 then 0 else dropout)
          ⟨T, B, hidden_size, fun t b f => emb (input_seq t b) f⟩ lengths hid0).2 := by
        rw [hraw]
      simp only [EncoderRNN.forward, EncoderRNN.init, reduceIte]
      rw [pack_ok ⟨T, B, hidden_size, fun t b f => emb (input_seq t b) f⟩ lengths hlen hsorted,
        h1, h2]
      rfl
  · simp only [add3, zipB, slice2]
    omega
  · intro t b f ht hb hf
    have h2 : raw.size2 - hidden_size = hidden_size := by omega
    simp only [add3, zipB, slice2, Nat.sub_zero, h2]
    rw [bidx_of_lt ht, bidx_of_lt hb, bidx_of_lt hf, Nat.zero_add]

/-- C4: attention-weighted context.  In one decoding step with the
configured recurrent layer producing `rnnOut`, the decoder uses the
weights `w` produced by `Attn.forward` from `rnnOut`; the context vector
is their batched product with the transposed encoder outputs — for each
batch element the weighted sum over encoder time steps of the encoder
output vectors — and the returned output is softmax of the output linear
layer applied to `tanh` of the concat linear layer applied to
`[rnnOut; context]`. -/
theorem decoder_context_weighted_sum {σ : Type} (rnn_type : String) (e th : ℚ → ℚ)
    (dropoutF : Tensor3 → Tensor3) (self : DecoderState σ) (r : UniRNN σ)
    (input_step : Nat → Nat → Nat) (B : Nat) (last_hidden : σ) (enc : Tensor3)
    (rnnOut : Tensor3) (hid : σ) (w : Tensor3)
    (hrnn : rnn_type = "LSTM" ∨ rnn_type = "GRU")
    (hlayer : (if rnn_type = "LSTM" then self.lstm else self.gru) = some r)
    (hstep : r (dropoutF ⟨1, B, self.hidden_size,
        fun t b f => self.embedding (input_step t b) f⟩) last_hidden = (rnnOut, hid))
    (hw : Attn.forward e th self.attn rnnOut enc = Except.ok w)
    (hw2 : w.size2 = enc.size0) :
    LuongAttnDecoderRNN.forward rnn_type e th dropoutF self input_step B last_hidden enc
      = Except.ok (softmaxDim1 e (linear2 self.out (tanh2 th (linear2 self.concat
          (cat1 (squeeze0 rnnOut) (squeeze1 (bmm w (transpose01 enc))))))), hid)
    ∧ ∀ b f, (bmm w (transpose01 enc)).data b 0 f
        = ∑ t ∈ Finset.range enc.size0, w.data b 0 t * enc.data t b f := by
  constructor
  · rcases hrnn with h | h <;> subst h
    · rw [if_pos rfl] at hlayer
      have h1 : rnnOut = (r (dropoutF ⟨1, B, self.hidden_size,
          fun t b f => self.embedding (input_step t b) f⟩) last_hidden).1 := by rw [hstep]
      have h2 : hid = (r (dropoutF ⟨1, B, self.hidden_size,
          fun t b f => self.embedding (input_step t b) f⟩) last_hidden).2 := by rw [hstep]
      rw [h1] at hw
      rw [h1, h2]
      simp only [LuongAttnDecoderRNN.forward, reduceIte, hlayer, except_bind_ok]
      rw [hw]
      rfl
    · rw [if_neg (by decide)] at hlayer
      have h1 : rnnOut = (r (dropoutF ⟨1, B, self.hidden_size,
          fun t b f => self.embedding (input_step t b) f⟩) last_hidden).1 := by rw [hstep]
      have h2 : hid = (r (dropoutF ⟨1, B, self.hidden_size,
          fun t b f => self.embedding (input_step t b) f⟩) last_hidden).2 := by rw [hstep]
      rw [h1] at hw
      rw [h1, h2]
      simp only [LuongAttnDecoderRNN.forward, reduceIte, hlayer, except_bind_ok]
      rw [hw]
      rfl
  · intro b f
    simp only [bmm, transpose01]
    rw [hw2]

/-- C9: the configured RNN type is never validated.  For any `rnn_type`
other than "LSTM" and "GRU", `EncoderRNN.__init__` and
`LuongAttnDecoderRNN.__init__` construct no recurrent layer and raise no
error, and the subsequent forward calls (on otherwise valid inputs) fail
with an unbound-local error — `outputs` for the encoder, `rnn_output`
for the decoder — not with a validation error. -/
theorem rnn_type_not_validated {σ : Type}
    (mkBL mkBG : Nat → Nat → Nat → ℚ → BiRNN σ)
    (mkUL mkUG : Nat → Nat → Nat → ℚ → UniRNN σ)
    (rnn_type : String) (hL : rnn_type ≠ "LSTM") (hG : rnn_type ≠ "GRU")
    (lw : Nat → Nat → ℚ) (lb vInit : Nat → ℚ) (emb : Nat → Nat → ℚ)
    (H O nl : Nat) (dp : ℚ) (input_seq : Nat → Nat → Nat) (T B : Nat)
    (lengths : List Nat) (hid0 : Option σ) (e th : ℚ → ℚ)
    (dropoutF : Tensor3 → Tensor3) (input_step : Nat → Nat → Nat) (lh : σ)
    (enc : Tensor3)
    (hlen : ∀ l ∈ lengths, 0 < l ∧ l ≤ T)
    (hsorted : List.Chain' (fun a b => b ≤ a) lengths) :
    (EncoderRNN.init rnn_type mkBL mkBG H emb nl dp).lstm = none
    ∧ (EncoderRNN.init rnn_type mkBL mkBG H emb nl dp).gru = none
    ∧ EncoderRNN.forward rnn_type (EncoderRNN.init rnn_type mkBL mkBG H emb nl dp)
        input_seq T B lengths hid0 = Except.error (PyError.unboundLocal "outputs")
    ∧ ∃ d : DecoderState σ,
        LuongAttnDecoderRNN.init rnn_type mkUL mkUG lw lb vInit "dot" emb H O nl dp
          = Except.ok d
        ∧ d.lstm = none ∧ d.gru = none
        ∧ LuongAttnDecoderRNN.forward rnn_type e th dropoutF d input_step B lh enc
            = Except.error (PyError.unboundLocal "rnn_output") := by
  refine ⟨if_neg hL, if_neg hG, ?_, ?_⟩
  · simp only [EncoderRNN.forward, EncoderRNN.init]
    rw [pack_ok ⟨T, B, H, fun t b f => emb (input_seq t b) f⟩ lengths hlen hsorted]
    simp only [if_neg hL, if_neg hG]
    rfl
  · refine ⟨⟨"dot", H, O, nl, dp, emb,
      if rnn_type = "LSTM" then some (mkUL H H nl (if nl = 1 then 0 else dp)) else none,
      if rnn_type = "GRU" then some (mkUG H H nl (if nl = 1 then 0 else dp)) else none,
      ⟨H * 2, H, lw, lb⟩, ⟨H, O, lw, lb⟩, ⟨"dot", H, none, none⟩⟩,
      rfl, if_neg hL, if_neg hG, ?_⟩
    simp only [LuongAttnDecoderRNN.forward, if_neg hL, if_neg hG]
    rfl

/-- C10: `EncoderRNN.forward` has an undocumented precondition on the
lengths: when the lengths are not sorted in non-increasing order the
packing step raises, and when every length is positive, bounded by the
padded time dimension, and the list is non-increasing, the forward pass
succeeds (with a recognised `RNN_TYPE`). -/
theorem encoder_forward_lengths_precondition {σ : Type}
    (mkBL mkBG : Nat → Nat → Nat → ℚ → BiRNN σ) (rnn_type : String)
    (H : Nat) (emb : Nat → Nat → ℚ) (nl : Nat) (dp : ℚ)
    (input_seq : Nat → Nat → Nat) (T B : Nat) (lengths : List Nat) (hid0 : Option σ)
    (hrnn : rnn_type = "LSTM" ∨ rnn_type = "GRU") :
    (¬ List.Chain' (fun a b => b ≤ a) lengths →
      (EncoderRNN.forward rnn_type (EncoderRNN.init rnn_type mkBL mkBG H emb nl dp)
        input_seq T B lengths hid0).isOk = false)
    ∧ ((∀ l ∈ lengths, 0 < l ∧ l ≤ T) → List.Chain' (fun a b => b ≤ a) lengths →
      (EncoderRNN.forward rnn_type (EncoderRNN.init rnn_type mkBL mkBG H emb nl dp)
        input_seq T B lengths hid0).isOk = true) := by
  constructor
  · intro hbad
    simp only [EncoderRNN.forward, EncoderRNN.init]
    rw [pack_err_unsorted ⟨T, B, H, fun t b f => emb (input_seq t b) f⟩ lengths hbad]
    rfl
  · intro hlen hsorted
    rcases hrnn with h | h <;> subst h <;>
      simp only [EncoderRNN.forward, EncoderRNN.init, reduceIte] <;>
      rw [pack_ok ⟨T, B, H, fun t b f => emb (input_seq t b) f⟩ lengths hlen hsorted] <;> rfl

/-- C6 counterexample: the module-level code does perform a
device-placement operation of its own — the import-time script contains
the `encoder.to(DEVICE)` statement (shown here at concrete
configuration values). -/
theorem module_device_ops_counterexample :
    deviceOpCount (importScript 7 8 2 2 "dot" 1 5) ≠ 0
    ∧ ModuleOp.toDevice "encoder" ∈ importScript 7 8 2 2 "dot" 1 5 := by
  constructor
  · intro h
    exact absurd h (by decide)
  · simp [importScript, moduleScript]

/-- C6 amended: the import-time script performs exactly two
device-placement operations of its own (moving the encoder and the
decoder to the configured device); the two `.cuda()` loops over
optimizer state execute zero iterations because `torch.optim.Adam`'s
state is empty at construction, and import therefore succeeds whether
or not a CUDA device is available. -/
theorem module_device_placement_amended (numWords hidden eL dL : Nat)
    (attnModel : String) (lr ratio : ℚ) (cuda : Bool) :
    deviceOpCount (importScript numWords hidden eL dL attnModel lr ratio) = 2
    ∧ (importScript numWords hidden eL dL attnModel lr ratio).filter isDeviceOp
        = [ModuleOp.toDevice "encoder", ModuleOp.toDevice "decoder"]
    ∧ runModule cuda (importScript numWords hidden eL dL attnModel lr ratio)
        = Except.ok () := by
  exact ⟨rfl, rfl, rfl⟩

/-- C8: at import time the module instantiates exactly two optimizers,
both Adam: one over the encoder's parameters at learning rate
`LEARNING_RATE` with no weight decay, and one over the decoder's
parameters at learning rate `LEARNING_RATE * DECODER_LEARNING_RATIO`
with weight decay 1e-5. -/
theorem import_two_adam_optimizers (numWords hidden eL dL : Nat)
    (attnModel : String) (lr ratio : ℚ) :
    optimizersOf (importScript numWords hidden eL dL attnModel lr ratio)
      = [⟨"Adam", "encoder.parameters", lr, 0⟩,
          ⟨"Adam", "decoder.parameters", lr * ratio, 1 / 100000⟩] := by
  rfl

/-! ### Concrete data for the witnesses -/

/-- Concrete `(1, 1, 1)` tensor of ones. -/
def wOne3 : Tensor3 := ⟨1, 1, 1, fun _ _ _ => 1⟩

/-- Concrete `(1, 1, 2)` tensor of ones (a bidirectional output). -/
def wRaw : Tensor3 := ⟨1, 1, 2, fun _ _ _ => 1⟩

/-- Concrete bidirectional recurrent constructor. -/
def wBi : Nat → Nat → Nat → ℚ → BiRNN Unit := fun _ _ _ _ _ _ _ => (wRaw, ())

/-- Concrete unidirectional recurrent constructor. -/
def wUni : Nat → Nat → Nat → ℚ → UniRNN Unit := fun _ _ _ _ _ _ => (wOne3, ())

/-- Concrete single-step recurrent function. -/
def wUniStep : UniRNN Unit := fun _ _ => (wOne3, ())

/-- Concrete linear layer with one input feature. -/
def wLin1 : Linear := ⟨1, 1, fun _ _ => 1, fun _ => 0⟩

/-- Concrete linear layer with two input features. -/
def wLin2 : Linear := ⟨1 + 1, 1, fun _ _ => 1, fun _ => 0⟩

/-- Concrete decoder state using method "dot". -/
def wDec : DecoderState Unit :=
  ⟨"dot", 1, 1, 1, 0, fun _ _ => 1, none, some wUniStep, wLin2, wLin1, ⟨"dot", 1, none, none⟩⟩

/-- The attention weights `Attn.forward` produces at the witness input. -/
def wAttnW : Tensor3 := unsqueeze1 (softmaxDim1 id (Tensor2.t (Attn.dot_score wOne3 wOne3)))

/-! ### Witnesses -/

/-- Witness for C2 at a concrete one-element batch. -/
theorem encoder_forward_bidirectional_merge_witness :
    (∀ l ∈ [1], 0 < l ∧ l ≤ 1)
    ∧ List.Chain' (fun a b : Nat => b ≤ a) [1]
    ∧ wRaw.size2 = 2 * 1
    ∧ (EncoderRNN.forward "GRU" (EncoderRNN.init "GRU" wBi wBi 1 (fun _ _ => 1) 1 0)
          (fun _ _ => 0) 1 1 [1] none
        = Except.ok (add3 (slice2 0 1 wRaw) (slice2 1 wRaw.size2 wRaw), ())
      ∧ (add3 (slice2 0 1 wRaw) (slice2 1 wRaw.size2 wRaw)).size2 = 1
      ∧ ∀ t b f, t < wRaw.size0 → b < wRaw.size1 → f < 1 →
          (add3 (slice2 0 1 wRaw) (slice2 1 wRaw.size2 wRaw)).data t b f
            = wRaw.data t b f + wRaw.data t b (1 + f)) :=
  ⟨by decide, List.chain'_singleton 1, rfl,
    encoder_forward_bidirectional_merge wBi wBi "GRU" 1 (fun _ _ => 1) 1 0
      (fun _ _ => 0) 1 1 [1] none wRaw () (Or.inr rfl) (by decide)
      (List.chain'_singleton 1) rfl rfl⟩

/-- Witness for C3 at a concrete input. -/
theorem attn_dot_general_scoring_witness :
    wOne3.size0 = 1 ∧ wOne3.size1 = 1 ∧ wOne3.size2 = 1
    ∧ wLin1.inF = 1 ∧ wLin1.outF = 1
    ∧ ((∀ t b, t < 1 → b < 1 →
        (Attn.dot_score wOne3 wOne3).data t b
          = ∑ f ∈ Finset.range 1, wOne3.data 0 b f * wOne3.data t b f)
      ∧ (∀ t b, t < 1 → b < 1 →
        (Attn.general_score wLin1 wOne3 wOne3).data t b
          = ∑ f ∈ Finset.range 1, wOne3.data 0 b f *
              ((∑ g ∈ Finset.range 1, wLin1.weight f g * wOne3.data t b g) + wLin1.bias f))
      ∧ (∀ p : AttnParams, p.method = "dot" →
          Attn.forward id id p wOne3 wOne3
            = Except.ok (unsqueeze1 (softmaxDim1 id (Tensor2.t (Attn.dot_score wOne3 wOne3)))))
      ∧ (∀ p : AttnParams, p.method = "general" → p.attn = some wLin1 →
          Attn.forward id id p wOne3 wOne3
            = Except.ok (unsqueeze1 (softmaxDim1 id
                (Tensor2.t (Attn.general_score wLin1 wOne3 wOne3)))))) :=
  ⟨rfl, rfl, rfl, rfl, rfl,
    attn_dot_general_scoring id id wOne3 wOne3 1 1 1 wLin1 rfl rfl rfl rfl rfl rfl rfl rfl⟩

/-- Witness for C4 at a concrete decoding step. -/
theorem decoder_context_weighted_sum_witness :
    ((if "GRU" = "LSTM" then wDec.lstm else wDec.gru) = some wUniStep)
    ∧ Attn.forward id id wDec.attn wOne3 wOne3 = Except.ok wAttnW
    ∧ wAttnW.size2 = wOne3.size0
    ∧ (LuongAttnDecoderRNN.forward "GRU" id id id wDec (fun _ _ => 0) 1 () wOne3
        = Except.ok (softmaxDim1 id (linear2 wDec.out (tanh2 id (linear2 wDec.concat
            (cat1 (squeeze0 wOne3) (squeeze1 (bmm wAttnW (transpose01 wOne3))))))), ())
      ∧ ∀ b f, (bmm wAttnW (transpose01 wOne3)).data b 0 f
          = ∑ t ∈ Finset.range wOne3.size0, wAttnW.data b 0 t * wOne3.data t b f) :=
  ⟨rfl, rfl, rfl,
    decoder_context_weighted_sum "GRU" id id id wDec wUniStep (fun _ _ => 0) 1 () wOne3
      wOne3 () wAttnW (Or.inr rfl) rfl rfl rfl rfl⟩

/-- Witness for C5 at a concrete input, with the constant-one positive
exponential. -/
theorem attn_forward_distribution_witness :
    (∀ x : ℚ, 0 < (fun _ : ℚ => (1 : ℚ)) x)
    ∧ Attn.init "dot" 1 (fun _ _ => 1) (fun _ => 0) (fun _ => 0)
        = Except.ok ⟨"dot", 1, none, none⟩
    ∧ (∃ w : Tensor3,
        Attn.forward (fun _ => 1) id ⟨"dot", 1, none, none⟩ wOne3 wOne3 = Except.ok w
        ∧ w.size0 = 1 ∧ w.size1 = 1 ∧ w.size2 = 1
        ∧ (∀ b t, 0 ≤ w.data b 0 t)
        ∧ (∀ b, ∑ t ∈ Finset.range 1, w.data b 0 t = 1)) :=
  ⟨fun _ => one_pos, rfl,
    attn_forward_distribution (fun _ => 1) id (fun _ => one_pos) "dot" (Or.inl rfl)
      1 (fun _ _ => 1) (fun _ => 0) (fun _ => 0) ⟨"dot", 1, none, none⟩ rfl
      wOne3 wOne3 1 1 (by decide) rfl rfl rfl rfl⟩

/-- Witness for C7 at a concrete input. -/
theorem attn_concat_score_formula_witness :
    wOne3.size2 = 1 ∧ wLin2.inF = 1 + 1 ∧ wLin2.outF = 1
    ∧ (Attn.concat_score id wLin2 (fun _ => 1) wOne3 wOne3).data 0 0
      = ∑ f ∈ Finset.range 1, (1 : ℚ) * id
          (((∑ g ∈ Finset.range 1, wLin2.weight f g * wOne3.data 0 0 g)
            + ∑ g ∈ Finset.range 1, wLin2.weight f (1 + g) * wOne3.data 0 0 g) + wLin2.bias f) :=
  ⟨rfl, rfl, rfl,
    attn_concat_score_formula id (fun _ => 1) wLin2 wOne3 wOne3 1 rfl rfl rfl rfl 0 0⟩

/-- Witness for C9 at the unrecognised RNN type "RNN". -/
theorem rnn_type_not_validated_witness :
    ("RNN" ≠ "LSTM") ∧ ("RNN" ≠ "GRU")
    ∧ ((EncoderRNN.init "RNN" wBi wBi 1 (fun _ _ => 1) 1 0).lstm = none
      ∧ (EncoderRNN.init "RNN" wBi wBi 1 (fun _ _ => 1) 1 0).gru = none
      ∧ EncoderRNN.forward "RNN" (EncoderRNN.init "RNN" wBi wBi 1 (fun _ _ => 1) 1 0)
          (fun _ _ => 0) 1 1 [1] none = Except.error (PyError.unboundLocal "outputs")
      ∧ ∃ d : DecoderState Unit,
          LuongAttnDecoderRNN.init "RNN" wUni wUni (fun _ _ => 1) (fun _ => 0) (fun _ => 0)
            "dot" (fun _ _ => 1) 1 1 1 0 = Except.ok d
          ∧ d.lstm = none ∧ d.gru = none
          ∧ LuongAttnDecoderRNN.forward "RNN" id id id d (fun _ _ => 0) 1 () wOne3
              = Except.error (PyError.unboundLocal "rnn_output")) :=
  ⟨by decide, by decide,
    rnn_type_not_validated wBi wBi wUni wUni "RNN" (by decide) (by decide)
      (fun _ _ => 1) (fun _ => 0) (fun _ => 0) (fun _ _ => 1) 1 1 1 0 (fun _ _ => 0) 1 1
      [1] none id id id (fun _ _ => 0) () wOne3 (by decide) (List.chain'_singleton 1)⟩

/-- Witness for C10 at a concrete valid batch, also evaluating the
success branch. -/
theorem encoder_forward_lengths_precondition_witness :
    ("GRU" = "LSTM" ∨ "GRU" = "GRU")
    ∧ ((¬ List.Chain' (fun a b : Nat => b ≤ a) [1] →
        (EncoderRNN.forward "GRU" (EncoderRNN.init "GRU" wBi wBi 1 (fun _ _ => 1) 1 0)
          (fun _ _ => 0) 1 1 [1] none).isOk = false)
      ∧ ((∀ l ∈ [1], 0 < l ∧ l ≤ 1) → List.Chain' (fun a b : Nat => b ≤ a) [1] →
        (EncoderRNN.forward "GRU" (EncoderRNN.init "GRU" wBi wBi 1 (fun _ _ => 1) 1 0)
          (fun _ _ => 0) 1 1 [1] none).isOk = true))
    ∧ (EncoderRNN.forward "GRU" (EncoderRNN.init "GRU" wBi wBi 1 (fun _ _ => 1) 1 0)
        (fun _ _ => 0) 1 1 [1] none).isOk = true :=
  ⟨Or.inr rfl,
    encoder_forward_lengths_precondition wBi wBi "GRU" 1 (fun _ _ => 1) 1 0
      (fun _ _ => 0) 1 1 [1] none (Or.inr rfl),
    (encoder_forward_lengths_precondition wBi wBi "GRU" 1 (fun _ _ => 1) 1 0
      (fun _ _ => 0) 1 1 [1] none (Or.inr rfl)).2 (by decide) (List.chain'_singleton 1)⟩
